import Mathlib

/-!
Verification of the WhatsApp web-service wrappers in this repository.

The repository contains three near-duplicate Express services:
* the multi-tenant map variant (`src/unnamed/part_000`): a `Map` from
  profile id to client handle with routes `/api/init`, `/api/disconnect`,
  `/api/status/:profileId`, `/health`;
* the single-client variant (`src/unnamed/part_001`): one global client
  and a `/send` route that normalizes the recipient;
* the documented variant embedded in `src/index.js` (`index.js` of the
  setup guide): a map variant whose `initializeClient` destroys any
  existing handle, awaits initialization, and returns QR/pairing data in
  the `/api/init` response.

We embed the route handlers as pure functions from explicit state
(registry contents, collaborator behavior, sink behavior) to the new
state, the HTTP response, and a trace of collaborator side effects.
-/

/-- Lifecycle state of one session handle. The handlers in the source only
ever create handles in the pre-connected state; transitions are driven by
collaborator events. -/
inductive ConnState where
  | initializing
  | awaitingQr
  | awaitingPairing
  | connected
  | authFailed
  | disconnected
  deriving Repr, DecidableEq

/-- One client handle stored in the registry. `hid` is a creation counter
identifying the underlying collaborator object, so that "the existing
handle was not destroyed / no new handle was constructed" is expressible. -/
structure Handle where
  hid : Nat
  userId : String
  state : ConnState
  deriving Repr, DecidableEq

/-- The `clients` map of the multi-tenant variants, as an association list
with JavaScript `Map` semantics for get/set/delete. -/
abbrev Registry := List (String × Handle)

/-- `clients.get(k)`. -/
def mapGet (m : Registry) (k : String) : Option Handle :=
  match m with
  | [] => none
  | (k₀, v₀) :: rest => if k₀ == k then some v₀ else mapGet rest k

/-- `clients.set(k, v)`: replaces an existing binding, else appends. -/
def mapSet (m : Registry) (k : String) (v : Handle) : Registry :=
  match m with
  | [] => [(k, v)]
  | (k₀, v₀) :: rest =>
      if k₀ == k then (k₀, v) :: rest else (k₀, v₀) :: mapSet rest k v

/-- `clients.delete(k)`. -/
def mapDelete (m : Registry) (k : String) : Registry :=
  match m with
  | [] => []
  | (k₀, v₀) :: rest =>
      if k₀ == k then mapDelete rest k else (k₀, v₀) :: mapDelete rest k

/-- `clients.has(k)`. -/
def mapHas (m : Registry) (k : String) : Bool :=
  (mapGet m k).isSome

/-- Side effects performed on the external collaborator by a handler. -/
inductive Effect where
  | constructClient (hid : Nat)
  | clientBoot (hid : Nat)
  | clientDestroy (hid : Nat)
  | pairingRequest (hid : Nat)
  | dispatchSend (recipient : List Char) (body : List Char)
  deriving Repr, DecidableEq

/-- A JSON response, with `none` for fields the handler does not set. -/
structure Resp where
  statusCode : Nat := 200
  success : Option Bool := none
  status : Option String := none
  message : Option String := none
  error : Option String := none
  qrCode : Option String := none
  pairingCode : Option String := none
  connected : Option Bool := none
  deriving Repr, DecidableEq

/-- JavaScript truthiness of a possibly absent string field (`!x` in the
source): absent and the empty string are falsy. -/
def truthy : Option String → Bool
  | none => false
  | some s => !(s == "")

/-- `leadsWith pat hay` is true when `hay` starts with `pat`. -/
def leadsWith : List Char → List Char → Bool
  | [], _ => true
  | _ :: _, [] => false
  | p :: ps, h :: hs => p == h && leadsWith ps hs

/-- JavaScript `hay.includes(pat)`: substring containment. -/
def containsSub (pat : List Char) : List Char → Bool
  | [] => leadsWith pat []
  | h :: hs => leadsWith pat (h :: hs) || containsSub pat hs

/-- `hay` ends with `pat`. -/
def endsWith (pat hay : List Char) : Bool :=
  leadsWith pat.reverse hay.reverse

/-- The collaborator's required recipient suffix `"@c.us"`. -/
def cus : List Char := ['@', 'c', '.', 'u', 's']

/-- Recipient normalization of the `/send` route
(`number.includes("@c.us") ? number : number + "@c.us"`). -/
def normalizeRecipient (number : List Char) : List Char :=
  if containsSub cus number then number else number ++ cus

/-- Request body of `/api/init` (`req.body` destructured). -/
structure InitBody where
  profileId : Option String
  userId : Option String
  usePairing : Bool
  deriving Repr, DecidableEq

/-- `POST /api/init` of the map variant (`src/unnamed/part_000`,
lines 154-188). On the fresh path `initializeClient` (lines 17-151)
constructs a client, starts `client.initialize()` without awaiting it
(plus an async pairing request when `usePairing`), and synchronously
stores the handle; the response carries only a status string. Returns
(new registry, next handle id, response, collaborator effects). -/
def initHandlerMap (reg : Registry) (nextId : Nat) (body : InitBody) :
    Registry × Nat × Resp × List Effect :=
  if !truthy body.profileId || !truthy body.userId then
    (reg, nextId,
      { statusCode := 400, success := some false,
        error := some "Missing profileId or userId" }, [])
  else
    let pid := body.profileId.getD ""
    match mapGet reg pid with
    | some _ =>
        (reg, nextId,
          { statusCode := 200, success := some true,
            message := some "Client already initialized",
            status := some "existing" }, [])
    | none =>
        let h : Handle :=
          { hid := nextId, userId := body.userId.getD "",
            state := ConnState.initializing }
        let effs :=
          if body.usePairing then
            [Effect.constructClient nextId, Effect.clientBoot nextId,
             Effect.pairingRequest nextId]
          else
            [Effect.constructClient nextId, Effect.clientBoot nextId]
        (mapSet reg pid h, nextId + 1,
          { statusCode := 200, success := some true,
            message := some "Initialization started",
            status := some "initializing" }, effs)

/-- `POST /api/disconnect` of the map variant (`src/unnamed/part_000`,
lines 190-204). `destroyThrows hid` says whether `client.destroy()` of
the handle with id `hid` rejects; a rejection skips `clients.delete`
and lands in the catch block (HTTP 500). A missing `profileId` makes
`clients.get(undefined)` return `undefined`. -/
def disconnectHandlerMap (destroyThrows : Nat → Bool) (reg : Registry)
    (profileId : Option String) : Registry × Resp × List Effect :=
  match profileId.bind (mapGet reg) with
  | none => (reg, { statusCode := 200, success := some true }, [])
  | some h =>
      if destroyThrows h.hid then
        (reg,
          { statusCode := 500, success := some false,
            error := some "destroy failed" },
          [Effect.clientDestroy h.hid])
      else
        (mapDelete reg (profileId.getD ""),
          { statusCode := 200, success := some true },
          [Effect.clientDestroy h.hid])

/-- `GET /api/status/:profileId` of the map variant (`src/unnamed/part_000`,
lines 206-214): `connected: client ? true : false`. -/
def statusHandlerMap (reg : Registry) (profileId : String) : Resp :=
  { statusCode := 200, connected := some (mapHas reg profileId) }

/-- Outcome of running one async event handler. -/
inductive HandlerOutcome where
  | ok
  | loggedError
  | uncaught
  deriving Repr, DecidableEq

/-- Result of one webhook delivery attempt by the external sink. -/
inductive SinkResult where
  | delivered
  | failed
  deriving Repr, DecidableEq

/-- The `ready` event handler of the map variant (`src/unnamed/part_000`,
lines 76-96): `await fetch(...).catch(console.error)` — a delivery
failure is logged and swallowed; the registry is not touched. -/
def readyHandlerMap (webhookUrl : Option String) (sink : SinkResult)
    (reg : Registry) : Registry × HandlerOutcome :=
  match webhookUrl with
  | none => (reg, HandlerOutcome.ok)
  | some _ =>
      match sink with
      | SinkResult.delivered => (reg, HandlerOutcome.ok)
      | SinkResult.failed => (reg, HandlerOutcome.loggedError)

/-- The `ready` event handler of the documented variant (`src/index.js`,
lines 105-124): `await fetch(...)` with no catch — a delivery failure
escapes the handler as an unhandled rejection; the registry is not
touched. -/
def readyHandlerDoc (webhookUrl : Option String) (sink : SinkResult)
    (reg : Registry) : Registry × HandlerOutcome :=
  match webhookUrl with
  | none => (reg, HandlerOutcome.ok)
  | some _ =>
      match sink with
      | SinkResult.delivered => (reg, HandlerOutcome.ok)
      | SinkResult.failed => (reg, HandlerOutcome.uncaught)

/-- `POST /api/init` of the documented variant (`src/index.js`,
lines 64-77 and 180-201). Its `initializeClient` first destroys and
deletes any existing handle (a rejected destroy aborts into the route's
catch block), then constructs a new client, awaits `initialize`,
optionally awaits a pairing code, stores the handle, and the route
returns the captured QR/pairing data in the response. `qrData` is what
the `qr` listener captured while `initialize` was awaited, `pairingData`
the result of `getPairingCode` (already `none` on its caught failure). -/
def initHandlerDoc (destroyThrows : Nat → Bool)
    (qrData pairingData : Option String) (reg : Registry) (nextId : Nat)
    (body : InitBody) : Registry × Nat × Resp × List Effect :=
  if !truthy body.profileId || !truthy body.userId then
    (reg, nextId,
      { statusCode := 400, error := some "Missing required fields" }, [])
  else
    let pid := body.profileId.getD ""
    let cont : Registry → List Effect → Registry × Nat × Resp × List Effect :=
      fun reg₀ effs₀ =>
        let h : Handle :=
          { hid := nextId, userId := body.userId.getD "",
            state := ConnState.initializing }
        let effs₁ :=
          if body.usePairing then
            effs₀ ++ [Effect.constructClient nextId, Effect.clientBoot nextId,
              Effect.pairingRequest nextId]
          else
            effs₀ ++ [Effect.constructClient nextId, Effect.clientBoot nextId]
        (mapSet reg₀ pid h, nextId + 1,
          { statusCode := 200, success := some true, qrCode := qrData,
            pairingCode := if body.usePairing then pairingData else none },
          effs₁)
    match mapGet reg pid with
    | some h₀ =>
        if destroyThrows h₀.hid then
          (reg, nextId,
            { statusCode := 500, error := some "destroy failed" },
            [Effect.clientDestroy h₀.hid])
        else
          cont (mapDelete reg pid) [Effect.clientDestroy h₀.hid]
    | none => cont reg []

/-- `POST /api/disconnect` of the documented variant (`src/index.js`,
lines 203-222): unlike the map variant it validates `profileId`
(HTTP 400 when falsy); otherwise identical, including the skipped
`clients.delete` when `client.destroy()` rejects. -/
def disconnectHandlerDoc (destroyThrows : Nat → Bool) (reg : Registry)
    (profileId : Option String) : Registry × Resp × List Effect :=
  if !truthy profileId then
    (reg, { statusCode := 400, error := some "Missing profileId" }, [])
  else
    match mapGet reg (profileId.getD "") with
    | none => (reg, { statusCode := 200, success := some true }, [])
    | some h =>
        if destroyThrows h.hid then
          (reg,
            { statusCode := 500, error := some "destroy failed" },
            [Effect.clientDestroy h.hid])
        else
          (mapDelete reg (profileId.getD ""),
            { statusCode := 200, success := some true },
            [Effect.clientDestroy h.hid])

/-- State of the single-client variant (`src/unnamed/part_001`): the
global `client`, `none` before `startWhatsApp` assigns it. `connected`
records whether the underlying session reached `ready`. -/
structure Client1 where
  connected : Bool
  deriving Repr, DecidableEq

/-- Request body of `/send`. -/
structure SendBody where
  number : List Char
  message : List Char
  deriving Repr, DecidableEq

/-- `POST /send` of the single-client variant (`src/unnamed/part_001`,
lines 58-73). The only guard is `!client` (handle existence, not
connectedness); whenever the client object exists, `client.sendMessage`
is invoked on the normalized recipient. `sendOk` says whether that
collaborator call resolves. -/
def sendHandler (sendOk : Bool) (st : Option Client1) (body : SendBody) :
    Resp × List Effect :=
  match st with
  | none =>
      ({ statusCode := 500, success := some false,
         message := some "Client not ready" }, [])
  | some _ =>
      let fmt := normalizeRecipient body.number
      if sendOk then
        ({ statusCode := 200, success := some true },
         [Effect.dispatchSend fmt body.message])
      else
        ({ statusCode := 500, success := some false,
           error := some "send error" },
         [Effect.dispatchSend fmt body.message])

theorem leadsWith_self (l : List Char) : leadsWith l l = true := by
  induction l with
  | nil => rfl
  | cons a t ih => simp [leadsWith, ih]

theorem leadsWith_append (l rest : List Char) :
    leadsWith l (l ++ rest) = true := by
  induction l with
  | nil => rfl
  | cons a t ih => simp [leadsWith, ih]

theorem containsSub_append_self (pat pre : List Char) :
    containsSub pat (pre ++ pat) = true := by
  induction pre with
  | nil =>
      cases pat with
      | nil => rfl
      | cons a t => simp [containsSub, leadsWith_self]
  | cons a t ih =>
      simp [containsSub, ih]

theorem normalizeRecipient_idem (n : List Char) :
    normalizeRecipient (normalizeRecipient n) = normalizeRecipient n := by
  unfold normalizeRecipient
  by_cases h : containsSub cus n = true
  · simp [h]
  · simp only [h]
    simp [containsSub_append_self cus n]

theorem mapGet_mapSet_self (m : Registry) (k : String) (v : Handle) :
    mapGet (mapSet m k v) k = some v := by
  induction m with
  | nil => simp [mapGet, mapSet]
  | cons e rest ih =>
      obtain ⟨k₀, v₀⟩ := e
      by_cases h : (k₀ == k) = true
      · simp [mapGet, mapSet, h]
      · simp [mapGet, mapSet, h, ih]

theorem mapGet_mapDelete_self (m : Registry) (k : String) :
    mapGet (mapDelete m k) k = none := by
  induction m with
  | nil => simp [mapGet, mapDelete]
  | cons e rest ih =>
      obtain ⟨k₀, v₀⟩ := e
      by_cases h : (k₀ == k) = true
      · simp [mapDelete, h, ih]
      · simp [mapGet, mapDelete, h, ih]

/-- C3 (amended): recipient normalization in `/send` is a pure function,
hence deterministic; it is idempotent; it appends the suffix exactly when
the recipient does not already contain `"@c.us"` as a substring (the
source checks `includes`, i.e. containment, not an end-of-string test). -/
theorem C3_normalize_idempotent (n : List Char) :
    normalizeRecipient (normalizeRecipient n) = normalizeRecipient n ∧
    (containsSub cus n = false → normalizeRecipient n = n ++ cus) ∧
    (containsSub cus n = true → normalizeRecipient n = n) := by
  refine ⟨normalizeRecipient_idem n, ?_, ?_⟩
  · intro h
    simp [normalizeRecipient, h]
  · intro h
    simp [normalizeRecipient, h]

theorem C3_normalize_idempotent_witness :
    normalizeRecipient (normalizeRecipient ['5', '5']) =
      normalizeRecipient ['5', '5'] ∧
    normalizeRecipient ['5', '5'] = ['5', '5'] ++ cus :=
  ⟨(C3_normalize_idempotent ['5', '5']).1,
   (C3_normalize_idempotent ['5', '5']).2.1 (by decide)⟩

/-- C3 (counterexample): the recipient `"0@c.us1"` lacks the required
suffix (it does not end with `"@c.us"`), yet normalization leaves it
unchanged — the suffix is not appended before dispatch, because the
source tests substring containment rather than a suffix. -/
theorem C3_counterexample :
    endsWith cus ['0', '@', 'c', '.', 'u', 's', '1'] = false ∧
    normalizeRecipient ['0', '@', 'c', '.', 'u', 's', '1'] =
      ['0', '@', 'c', '.', 'u', 's', '1'] ∧
    endsWith cus
      (normalizeRecipient ['0', '@', 'c', '.', 'u', 's', '1']) = false := by
  decide

/-- C2 (amended): `/send` fails with the NotReady response
(`"Client not ready"`) and performs no collaborator dispatch exactly when
no client object exists (`!client`); when a client object exists — whether
or not the session is connected — `client.sendMessage` is always invoked
on the normalized recipient, and a collaborator failure surfaces as a
generic 500 error, not as NotReady. -/
theorem C2_send_notReady (sendOk : Bool) (body : SendBody) (c : Client1) :
    sendHandler sendOk none body =
      ({ statusCode := 500, success := some false,
         message := some "Client not ready" }, []) ∧
    (sendHandler sendOk (some c) body).2 =
      [Effect.dispatchSend (normalizeRecipient body.number) body.message] := by
  constructor
  · rfl
  · cases sendOk <;> rfl

/-- C2 (counterexample): a client object that exists but is not connected
is a profile with no connected handle, yet `/send` does attempt the
collaborator dispatch and its failure response is not NotReady. -/
theorem C2_counterexample :
    ({ connected := false } : Client1).connected = false ∧
    (sendHandler false (some { connected := false })
        { number := ['5'], message := ['h', 'i'] }).2 ≠ [] ∧
    (sendHandler false (some { connected := false })
        { number := ['5'], message := ['h', 'i'] }).1.message ≠
      some "Client not ready" := by
  refine ⟨rfl, ?_, ?_⟩
  · simp [sendHandler]
  · simp [sendHandler]

/-- C7: in both multi-tenant variants, an `/api/init` request with a falsy
`profileId` or `userId` is rejected with HTTP 400, the response is an
error (no `success: true`, an `error` field is present), the registry and
handle counter are unchanged, and no collaborator effect is performed. -/
theorem C7_init_validation (reg : Registry) (nextId : Nat) (body : InitBody)
    (destroyThrows : Nat → Bool) (qrData pairingData : Option String)
    (hbad : truthy body.profileId = false ∨ truthy body.userId = false) :
    initHandlerMap reg nextId body =
      (reg, nextId,
        { statusCode := 400, success := some false,
          error := some "Missing profileId or userId" }, []) ∧
    initHandlerDoc destroyThrows qrData pairingData reg nextId body =
      (reg, nextId,
        { statusCode := 400, error := some "Missing required fields" }, []) := by
  have hcond : (!truthy body.profileId || !truthy body.userId) = true := by
    rcases hbad with h | h <;> simp [h]
  constructor
  · unfold initHandlerMap
    simp [hcond]
  · unfold initHandlerDoc
    simp [hcond]

theorem C7_init_validation_witness :
    initHandlerMap [] 0 ⟨none, some "u1", false⟩ =
      ([], 0,
        { statusCode := 400, success := some false,
          error := some "Missing profileId or userId" }, []) ∧
    initHandlerDoc (fun _ => false) none none [] 0 ⟨none, some "u1", false⟩ =
      ([], 0,
        { statusCode := 400, error := some "Missing required fields" }, []) :=
  C7_init_validation [] 0 ⟨none, some "u1", false⟩
    (fun _ => false) none none (Or.inl rfl)

/-- C1 (amended): in the map variant (`src/unnamed/part_000`), a valid
`/api/init` for a `profileId` that already maps to a handle returns
status `existing` and performs no side effects: the registry and handle
counter are unchanged (so the identifier keeps its one handle) and no
collaborator effect — no construction, no destruction — is performed.
(The documented variant behaves differently; see the counterexample.) -/
theorem C1_init_existing_map (reg : Registry) (nextId : Nat)
    (pid uid : String) (up : Bool) (h : Handle)
    (hpid : pid ≠ "") (huid : uid ≠ "") (hget : mapGet reg pid = some h) :
    initHandlerMap reg nextId ⟨some pid, some uid, up⟩ =
      (reg, nextId,
        { statusCode := 200, success := some true,
          message := some "Client already initialized",
          status := some "existing" }, []) := by
  have h1 : (pid == "") = false := beq_eq_false_iff_ne.mpr hpid
  have h2 : (uid == "") = false := beq_eq_false_iff_ne.mpr huid
  unfold initHandlerMap
  simp [truthy, h1, h2, hget]

theorem C1_init_existing_map_witness :
    initHandlerMap [("p1", ⟨0, "u1", ConnState.initializing⟩)] 5
        ⟨some "p1", some "u1", false⟩ =
      ([("p1", ⟨0, "u1", ConnState.initializing⟩)], 5,
        { statusCode := 200, success := some true,
          message := some "Client already initialized",
          status := some "existing" }, []) :=
  C1_init_existing_map [("p1", ⟨0, "u1", ConnState.initializing⟩)] 5
    "p1" "u1" false ⟨0, "u1", ConnState.initializing⟩
    (by decide) (by decide) (by decide)

/-- C1 (counterexample): in the documented variant (`src/index.js`), a
valid `/api/init` for a registered `profileId` does not return status
`existing`; it destroys the existing handle (id 0), constructs and stores
a fresh one (id 1), so the call has side effects. -/
theorem C1_counterexample :
    (initHandlerDoc (fun _ => false) none none
        [("p1", ⟨0, "u1", ConnState.initializing⟩)] 1
        ⟨some "p1", some "u1", false⟩).2.2.1.status = none ∧
    Effect.clientDestroy 0 ∈
      (initHandlerDoc (fun _ => false) none none
        [("p1", ⟨0, "u1", ConnState.initializing⟩)] 1
        ⟨some "p1", some "u1", false⟩).2.2.2 ∧
    mapGet (initHandlerDoc (fun _ => false) none none
        [("p1", ⟨0, "u1", ConnState.initializing⟩)] 1
        ⟨some "p1", some "u1", false⟩).1 "p1" =
      some ⟨1, "u1", ConnState.initializing⟩ := by
  decide

/-- C5 (amended): in the map variant, a valid `/api/init` for a fresh
`profileId` responds exactly with `success` and status `initializing` —
in particular no QR code, no pairing code and no connected flag are in
the response — while the handle is stored still in its pre-connected
state. (The documented variant instead returns the QR/pairing data in
the response; see the counterexample.) -/
theorem C5_init_fresh_map (reg : Registry) (nextId : Nat)
    (pid uid : String) (up : Bool)
    (hpid : pid ≠ "") (huid : uid ≠ "") (hget : mapGet reg pid = none) :
    (initHandlerMap reg nextId ⟨some pid, some uid, up⟩).2.2.1 =
      { statusCode := 200, success := some true,
        message := some "Initialization started",
        status := some "initializing" } ∧
    mapGet (initHandlerMap reg nextId ⟨some pid, some uid, up⟩).1 pid =
      some ⟨nextId, uid, ConnState.initializing⟩ := by
  have h1 : (pid == "") = false := beq_eq_false_iff_ne.mpr hpid
  have h2 : (uid == "") = false := beq_eq_false_iff_ne.mpr huid
  unfold initHandlerMap
  simp [truthy, h1, h2, hget, mapGet_mapSet_self]

theorem C5_init_fresh_map_witness :
    (initHandlerMap [] 0 ⟨some "p1", some "u1", false⟩).2.2.1 =
      { statusCode := 200, success := some true,
        message := some "Initialization started",
        status := some "initializing" } ∧
    mapGet (initHandlerMap [] 0 ⟨some "p1", some "u1", false⟩).1 "p1" =
      some ⟨0, "u1", ConnState.initializing⟩ :=
  C5_init_fresh_map [] 0 "p1" "u1" false (by decide) (by decide) rfl

/-- C5 (counterexample): in the documented variant, a valid `/api/init`
for a fresh `profileId` returns the QR code captured during the awaited
initialization in its response, and carries no `initializing` status. -/
theorem C5_counterexample :
    (initHandlerDoc (fun _ => false) (some "QRDATA") none [] 0
        ⟨some "p1", some "u1", false⟩).2.2.1.qrCode = some "QRDATA" ∧
    (initHandlerDoc (fun _ => false) (some "QRDATA") none [] 0
        ⟨some "p1", some "u1", false⟩).2.2.1.status = none := by
  decide

/-- C10: in the map variant, `/api/status/:profileId` reports
`connected = true` exactly when a registry entry exists
(`connected: client ? true : false`); since a valid fresh `/api/init`
stores the handle synchronously in its pre-connected `initializing`
state, status reports `connected = true` immediately after `Init`,
before any `connected` event. -/
theorem C10_status_is_registry_membership (reg : Registry) (nextId : Nat)
    (pid uid : String) (up : Bool)
    (hpid : pid ≠ "") (huid : uid ≠ "") (hget : mapGet reg pid = none) :
    (∀ (reg₂ : Registry) (p : String),
        (statusHandlerMap reg₂ p).connected = some (mapHas reg₂ p)) ∧
    mapGet (initHandlerMap reg nextId ⟨some pid, some uid, up⟩).1 pid =
      some ⟨nextId, uid, ConnState.initializing⟩ ∧
    (statusHandlerMap
        (initHandlerMap reg nextId ⟨some pid, some uid, up⟩).1 pid).connected =
      some true := by
  have h1 : (pid == "") = false := beq_eq_false_iff_ne.mpr hpid
  have h2 : (uid == "") = false := beq_eq_false_iff_ne.mpr huid
  refine ⟨fun reg₂ p => rfl, ?_, ?_⟩
  · unfold initHandlerMap
    simp [truthy, h1, h2, hget, mapGet_mapSet_self]
  · unfold initHandlerMap statusHandlerMap
    simp [truthy, h1, h2, hget, mapHas, mapGet_mapSet_self]

theorem C10_status_is_registry_membership_witness :
    (statusHandlerMap [] "p9").connected = some (mapHas [] "p9") ∧
    mapGet (initHandlerMap [] 7 ⟨some "p1", some "u1", true⟩).1 "p1" =
      some ⟨7, "u1", ConnState.initializing⟩ ∧
    (statusHandlerMap
        (initHandlerMap [] 7 ⟨some "p1", some "u1", true⟩).1 "p1").connected =
      some true :=
  ⟨(C10_status_is_registry_membership [] 7 "p1" "u1" true
      (by decide) (by decide) rfl).1 [] "p9",
   (C10_status_is_registry_membership [] 7 "p1" "u1" true
      (by decide) (by decide) rfl).2.1,
   (C10_status_is_registry_membership [] 7 "p1" "u1" true
      (by decide) (by decide) rfl).2.2⟩

/-- C4 (amended): in both multi-tenant variants, `/api/disconnect` for a
registered `profileId` removes the registry entry only when the
collaborator teardown succeeds; when `client.destroy()` rejects, the
route answers HTTP 500 and `clients.delete` is skipped, so the registry
entry remains (it leaks on collaborator errors). -/
theorem C4_disconnect_removal (destroyThrows : Nat → Bool) (reg : Registry)
    (pid : String) (h : Handle)
    (hpid : pid ≠ "") (hget : mapGet reg pid = some h) :
    (destroyThrows h.hid = false →
      (disconnectHandlerMap destroyThrows reg (some pid)).1 =
        mapDelete reg pid ∧
      (disconnectHandlerDoc destroyThrows reg (some pid)).1 =
        mapDelete reg pid) ∧
    (destroyThrows h.hid = true →
      (disconnectHandlerMap destroyThrows reg (some pid)).1 = reg ∧
      (disconnectHandlerMap destroyThrows reg (some pid)).2.1.statusCode
        = 500 ∧
      (disconnectHandlerDoc destroyThrows reg (some pid)).1 = reg ∧
      (disconnectHandlerDoc destroyThrows reg (some pid)).2.1.statusCode
        = 500) := by
  have h1 : (pid == "") = false := beq_eq_false_iff_ne.mpr hpid
  constructor
  · intro hd
    constructor
    · simp [disconnectHandlerMap, hget, hd]
    · simp [disconnectHandlerDoc, truthy, h1, hget, hd]
  · intro hd
    refine ⟨?_, ?_, ?_, ?_⟩
    · simp [disconnectHandlerMap, hget, hd]
    · simp [disconnectHandlerMap, hget, hd]
    · simp [disconnectHandlerDoc, truthy, h1, hget, hd]
    · simp [disconnectHandlerDoc, truthy, h1, hget, hd]

theorem C4_disconnect_removal_witness :
    ((disconnectHandlerMap (fun _ => false)
        [("p1", ⟨0, "u1", ConnState.connected⟩)] (some "p1")).1 =
      mapDelete [("p1", ⟨0, "u1", ConnState.connected⟩)] "p1" ∧
     (disconnectHandlerDoc (fun _ => false)
        [("p1", ⟨0, "u1", ConnState.connected⟩)] (some "p1")).1 =
      mapDelete [("p1", ⟨0, "u1", ConnState.connected⟩)] "p1") ∧
    ((disconnectHandlerMap (fun _ => true)
        [("p1", ⟨0, "u1", ConnState.connected⟩)] (some "p1")).1 =
      [("p1", ⟨0, "u1", ConnState.connected⟩)] ∧
     (disconnectHandlerMap (fun _ => true)
        [("p1", ⟨0, "u1", ConnState.connected⟩)] (some "p1")).2.1.statusCode
        = 500 ∧
     (disconnectHandlerDoc (fun _ => true)
        [("p1", ⟨0, "u1", ConnState.connected⟩)] (some "p1")).1 =
      [("p1", ⟨0, "u1", ConnState.connected⟩)] ∧
     (disconnectHandlerDoc (fun _ => true)
        [("p1", ⟨0, "u1", ConnState.connected⟩)] (some "p1")).2.1.statusCode
        = 500) :=
  ⟨(C4_disconnect_removal (fun _ => false)
      [("p1", ⟨0, "u1", ConnState.connected⟩)] "p1"
      ⟨0, "u1", ConnState.connected⟩ (by decide) rfl).1 rfl,
   (C4_disconnect_removal (fun _ => true)
      [("p1", ⟨0, "u1", ConnState.connected⟩)] "p1"
      ⟨0, "u1", ConnState.connected⟩ (by decide) rfl).2 rfl⟩

/-- C4 (counterexample): with a handle for `"p1"` whose teardown rejects,
disconnect leaves the registry entry in place — the removal is not
performed "regardless of teardown success/failure". -/
theorem C4_counterexample :
    mapGet (disconnectHandlerMap (fun _ => true)
        [("p1", ⟨0, "u1", ConnState.connected⟩)] (some "p1")).1 "p1" =
      some ⟨0, "u1", ConnState.connected⟩ ∧
    (disconnectHandlerMap (fun _ => true)
        [("p1", ⟨0, "u1", ConnState.connected⟩)]
        (some "p1")).2.1.statusCode = 500 := by
  decide

/-- C6 (amended): in the map variant, whenever the looked-up handle's
teardown does not reject (in particular whenever no handle exists, also
for a missing `profileId`), `/api/disconnect` answers plain success, and
a second identical call leaves the registry exactly as after the first
and answers the same success response. A rejecting teardown instead
answers HTTP 500 (see the counterexample). -/
theorem C6_disconnect_idempotent (destroyThrows : Nat → Bool)
    (reg : Registry) (profileId : Option String)
    (hok : ∀ h, profileId.bind (mapGet reg) = some h →
      destroyThrows h.hid = false) :
    (disconnectHandlerMap destroyThrows reg profileId).2.1 =
      { statusCode := 200, success := some true } ∧
    (disconnectHandlerMap destroyThrows
        (disconnectHandlerMap destroyThrows reg profileId).1 profileId).1 =
      (disconnectHandlerMap destroyThrows reg profileId).1 ∧
    (disconnectHandlerMap destroyThrows
        (disconnectHandlerMap destroyThrows reg profileId).1 profileId).2.1 =
      { statusCode := 200, success := some true } := by
  cases profileId with
  | none => refine ⟨rfl, rfl, rfl⟩
  | some pid =>
      cases hget : mapGet reg pid with
      | none => simp [disconnectHandlerMap, hget]
      | some h =>
          have hd : destroyThrows h.hid = false := hok h (by simp [hget])
          simp [disconnectHandlerMap, hget, hd, mapGet_mapDelete_self]

theorem C6_disconnect_idempotent_witness :
    (disconnectHandlerMap (fun _ => false)
        [("p1", ⟨0, "u1", ConnState.connected⟩)] (some "p1")).2.1 =
      { statusCode := 200, success := some true } ∧
    (disconnectHandlerMap (fun _ => false)
        (disconnectHandlerMap (fun _ => false)
          [("p1", ⟨0, "u1", ConnState.connected⟩)] (some "p1")).1
        (some "p1")).1 =
      (disconnectHandlerMap (fun _ => false)
        [("p1", ⟨0, "u1", ConnState.connected⟩)] (some "p1")).1 ∧
    (disconnectHandlerMap (fun _ => false)
        (disconnectHandlerMap (fun _ => false)
          [("p1", ⟨0, "u1", ConnState.connected⟩)] (some "p1")).1
        (some "p1")).2.1 =
      { statusCode := 200, success := some true } :=
  C6_disconnect_idempotent (fun _ => false)
    [("p1", ⟨0, "u1", ConnState.connected⟩)] (some "p1")
    (fun _ _ => rfl)

/-- C6 (counterexample): disconnect of a registered profile whose
teardown rejects does not succeed from the caller's point of view: the
route answers HTTP 500 with `success: false`. -/
theorem C6_counterexample :
    (disconnectHandlerMap (fun _ => true)
        [("p2", ⟨3, "u2", ConnState.connected⟩)]
        (some "p2")).2.1.success = some false ∧
    (disconnectHandlerMap (fun _ => true)
        [("p2", ⟨3, "u2", ConnState.connected⟩)]
        (some "p2")).2.1.statusCode = 500 := by
  decide

/-- C9 (amended): the map variant's `/api/disconnect` performs no
argument validation: no request is ever answered with HTTP 400, and a
body with `profileId` missing entirely is answered with plain success,
leaving the registry untouched. The only non-success answer is the
HTTP 500 when an existing handle's teardown rejects (counterexample). -/
theorem C9_disconnect_no_validation (destroyThrows : Nat → Bool)
    (reg : Registry) (profileId : Option String) :
    (disconnectHandlerMap destroyThrows reg profileId).2.1.statusCode ≠ 400 ∧
    (profileId = none →
      disconnectHandlerMap destroyThrows reg profileId =
        (reg, { statusCode := 200, success := some true }, [])) := by
  constructor
  · cases hb : profileId.bind (mapGet reg) with
    | none => simp [disconnectHandlerMap, hb]
    | some h =>
        by_cases hd : destroyThrows h.hid = true
        · simp [disconnectHandlerMap, hb, hd]
        · simp [disconnectHandlerMap, hb, hd]
  · intro hp
    subst hp
    rfl

theorem C9_disconnect_no_validation_witness :
    (disconnectHandlerMap (fun _ => false)
        [("p1", ⟨0, "u1", ConnState.connected⟩)] none).2.1.statusCode ≠ 400 ∧
    disconnectHandlerMap (fun _ => false)
        [("p1", ⟨0, "u1", ConnState.connected⟩)] none =
      ([("p1", ⟨0, "u1", ConnState.connected⟩)],
        { statusCode := 200, success := some true }, []) :=
  ⟨(C9_disconnect_no_validation (fun _ => false)
      [("p1", ⟨0, "u1", ConnState.connected⟩)] none).1,
   (C9_disconnect_no_validation (fun _ => false)
      [("p1", ⟨0, "u1", ConnState.connected⟩)] none).2 rfl⟩

/-- C9 (counterexample): not every request body is answered with success:
a body naming a registered profile whose teardown rejects is answered
with `success: false` (HTTP 500). -/
theorem C9_counterexample :
    (disconnectHandlerMap (fun _ => true)
        [("p3", ⟨4, "u3", ConnState.initializing⟩)]
        (some "p3")).2.1.success = some false := by
  decide

/-- C8 (amended): a failed webhook delivery in the `ready` handler never
mutates the registry in either variant, and in the map variant it is
caught and logged (`.catch(console.error)`) — it never escapes the
handler. In the documented variant the rejection is not caught and
escapes as an unhandled rejection (see the counterexample), though the
registry is still untouched. -/
theorem C8_sink_failure_swallowed (webhookUrl : Option String)
    (sink : SinkResult) (reg : Registry) :
    (readyHandlerMap webhookUrl sink reg).1 = reg ∧
    (readyHandlerDoc webhookUrl sink reg).1 = reg ∧
    (readyHandlerMap webhookUrl sink reg).2 ≠ HandlerOutcome.uncaught ∧
    (webhookUrl ≠ none → sink = SinkResult.failed →
      (readyHandlerMap webhookUrl sink reg).2 =
        HandlerOutcome.loggedError) := by
  cases webhookUrl <;> cases sink <;>
    simp [readyHandlerMap, readyHandlerDoc]

theorem C8_sink_failure_swallowed_witness :
    (readyHandlerMap (some "http") SinkResult.failed
        [("p1", ⟨0, "u1", ConnState.connected⟩)]).1 =
      [("p1", ⟨0, "u1", ConnState.connected⟩)] ∧
    (readyHandlerMap (some "http") SinkResult.failed
        [("p1", ⟨0, "u1", ConnState.connected⟩)]).2 =
      HandlerOutcome.loggedError :=
  ⟨(C8_sink_failure_swallowed (some "http") SinkResult.failed
      [("p1", ⟨0, "u1", ConnState.connected⟩)]).1,
   (C8_sink_failure_swallowed (some "http") SinkResult.failed
      [("p1", ⟨0, "u1", ConnState.connected⟩)]).2.2.2
     (by decide) rfl⟩

/-- C8 (counterexample): in the documented variant's `ready` handler the
failed delivery is not swallowed after logging: the rejection escapes the
handler uncaught. -/
theorem C8_counterexample :
    (readyHandlerDoc (some "http") SinkResult.failed []).2 =
      HandlerOutcome.uncaught ∧
    (readyHandlerDoc (some "http") SinkResult.failed []).2 ≠
      HandlerOutcome.loggedError := by
  decide
